import Mathlib

/-!
# gin-contrib: request logging, panic recovery and the gorm logger adapter

A shallow embedding of `gzap/gzap.go` and `gormzap/gz.go`.

The web framework (gin), the structured logger (thinkgos/logger), the ORM
(gorm) and the Go standard library are not part of the repository.  They are
represented by the small state they expose to the repository's code:

* a logger is the sequence of records handed to it, together with its
  `Enabled` predicate;
* a request context is the request, the response writer, the recorded
  errors and the abort flag;
* a downstream handler chain is a script of calls on the context, possibly
  ending in a panic.
-/

/-! ## Go values shared by both packages -/

/-- Go error values that the code inspects: plain errors, gorm's sentinel
`ErrRecordNotFound`, wrapping errors, `*os.SyscallError` and `*net.OpError`
(with `Source` and `Addr` unset). -/
inductive GoError where
  | new (msg : String)
  | recordNotFound
  | wrapped (msg : String) (err : GoError)
  | syscallError (syscall : String) (err : GoError)
  | opError (op : String) (net : String) (err : GoError)
  deriving DecidableEq, Repr

namespace GoError

/-- The `Error()` method of each error value. -/
def Error : GoError → String
  | new msg => msg
  | recordNotFound => "record not found"
  | wrapped msg _ => msg
  | syscallError syscall err => syscall ++ ": " ++ err.Error
  | opError op net err =>
    (if net ≠ "" then op ++ " " ++ net else op) ++ ": " ++ err.Error

/-- The call `errors.Is(err, gorm.ErrRecordNotFound)`: follows the `Unwrap` chain. -/
def isRecordNotFound : GoError → Bool
  | new _ => false
  | recordNotFound => true
  | wrapped _ err => err.isRecordNotFound
  | syscallError _ err => err.isRecordNotFound
  | opError _ _ err => err.isRecordNotFound

end GoError

/-- A value passed to `panic`: an error value, or a value of another type
(such as a string), given by its printed form. -/
inductive PanicValue where
  | error (e : GoError)
  | value (text : String)
  deriving DecidableEq, Repr

/-- Go strings and byte slices are byte sequences. -/
abbrev Bytes := List UInt8

/-- The bytes of a string literal. -/
def goString (s : String) : Bytes := s.toList.flatMap String.utf8EncodeChar

/-! ## The structured logger, as seen by its callers -/

namespace logger

/-- The levels of `logger.Level`. -/
inductive Level where
  | DebugLevel
  | InfoLevel
  | WarnLevel
  | ErrorLevel
  | DPanicLevel
  | PanicLevel
  | FatalLevel
  deriving DecidableEq, Repr

/-- The value of a field attached to an event. -/
inductive FieldValue where
  | int (v : Int)
  | int64 (v : Int)
  | string (v : Bytes)
  | byteString (v : Bytes)
  | duration (v : Int)
  | error (e : Option GoError)
  | any (v : PanicValue)
  deriving DecidableEq, Repr

/-- A `logger.Field`: key and value. -/
structure Field where
  key : String
  value : FieldValue
  deriving DecidableEq, Repr

/-- A finished event: what `Msg` or `Printf` hands to the logger (`Printf`
hands over a format and its arguments). -/
structure Record where
  level : Level
  fields : List Field
  msg : String
  args : List String
  deriving DecidableEq, Repr

/-- A `*logger.Log`: its `Enabled` predicate and the records handed to it so
far, oldest first.  What the logger does with a record afterwards is its own
business. -/
structure Log where
  Enabled : Level → Bool
  records : List Record

/-- An event under construction (`*logger.Event`). -/
structure Event where
  level : Level
  fields : List Field
  deriving DecidableEq, Repr

/-- The call `log.OnLevelContext(ctx, level)`. -/
def OnLevelContext (level : Level) : Event := ⟨level, []⟩

/-- The call `log.OnDebugContext(ctx)`. -/
def OnDebugContext : Event := OnLevelContext .DebugLevel

/-- The call `log.OnInfoContext(ctx)`. -/
def OnInfoContext : Event := OnLevelContext .InfoLevel

/-- The call `log.OnWarnContext(ctx)`. -/
def OnWarnContext : Event := OnLevelContext .WarnLevel

/-- The call `log.OnErrorContext(ctx)`. -/
def OnErrorContext : Event := OnLevelContext .ErrorLevel

/-- Field keys are string literals. -/
abbrev Key := String

namespace Event

/-- The method `With(field)`: attach one field. -/
def With (e : Event) (f : Field) : Event := { e with fields := e.fields ++ [f] }

/-- The method `Error(err)`; `err` may be nil. -/
def Error (e : Event) (err : Option GoError) : Event := e.With ⟨"error", .error err⟩

/-- The method `Duration(key, d)`. -/
def Duration (e : Event) (key : Key) (d : Int) : Event := e.With ⟨key, .duration d⟩

/-- The method `ByteString(key, b)`. -/
def ByteString (e : Event) (key : Key) (b : Bytes) : Event := e.With ⟨key, .byteString b⟩

/-- The method `Any(key, v)`. -/
def Any (e : Event) (key : Key) (v : PanicValue) : Event := e.With ⟨key, .any v⟩

/-- The method `DoHookFunc(hook)`: attach the field the hook yields. -/
def DoHookFunc (e : Event) (hook : Unit → Field) : Event := e.With (hook ())

/-- The method `Configure(f)`: let `f` extend the event. -/
def Configure (e : Event) (f : Event → Event) : Event := f e

/-- The method `Msg(msg)`: finish the event and hand it to the logger. -/
def Msg (e : Event) (msg : String) (log : Log) : Log :=
  { log with records := log.records ++ [⟨e.level, e.fields, msg, []⟩] }

/-- The method `Printf(format, args...)`: finish the event with a formatted message. -/
def Printf (e : Event) (format : String) (args : List String) (log : Log) : Log :=
  { log with records := log.records ++ [⟨e.level, e.fields, format, args⟩] }

/-- The method `Int(key, v)`. -/
def Int (e : Event) (key : Key) (v : Int) : Event := e.With ⟨key, .int v⟩

/-- The method `String(key, v)`. -/
def String (e : Event) (key : Key) (v : Bytes) : Event := e.With ⟨key, .string v⟩

end Event

/-- The constructor `logger.String(key, v)`. -/
def String (key : Key) (v : Bytes) : Field := ⟨key, .string v⟩

/-- The constructor `logger.Int64(key, v)`. -/
def Int64 (key : Key) (v : Int) : Field := ⟨key, .int64 v⟩

end logger

/-! ## Package gormzap -/

namespace gormlogger

/-- Silent level (the type `gormlogger.LogLevel` is an `int`). -/
def Silent : Int := 1
/-- Error level. -/
def Error : Int := 2
/-- Warn level. -/
def Warn : Int := 3
/-- Info level. -/
def Info : Int := 4

/-- The struct `gormlogger.Config`; durations are nanoseconds. -/
structure Config where
  SlowThreshold : Int
  Colorful : Bool
  IgnoreRecordNotFoundError : Bool
  LogLevel : Int

end gormlogger

namespace gormzap

open logger

/-- The struct `Logger`: the wrapped log and the embedded gorm config. -/
structure Logger where
  log : Log
  toConfig : gormlogger.Config

/-- Option: a function updating the logger under construction. -/
abbrev LoggerOption := Logger → Logger

/-- The option `WithConfig(cfg)`. -/
def WithConfig (cfg : gormlogger.Config) : LoggerOption :=
  fun l => { l with toConfig := cfg }

/-- One millisecond, in nanoseconds. -/
def Millisecond : Int := 1000000

/-- The constructor `New(log, opts...)`. -/
def New (log : Log) (opts : List LoggerOption) : Logger :=
  let l : Logger :=
    { log := log
      toConfig :=
        { SlowThreshold := 200 * Millisecond
          Colorful := false
          IgnoreRecordNotFoundError := false
          LogLevel := gormlogger.Warn } }
  opts.foldl (fun l opt => opt l) l

/-- The method `LogMode(level)`. -/
def Logger.LogMode (l : Logger) (level : Int) : Logger :=
  { l with toConfig := { l.toConfig with LogLevel := level } }

/-- The method `Info(ctx, msg, args...)`; returns the log afterwards. -/
def Logger.Info (l : Logger) (msg : String) (args : List String) : Log :=
  if l.toConfig.LogLevel ≥ gormlogger.Info && l.log.Enabled .InfoLevel then
    OnDebugContext.Printf msg args l.log
  else
    l.log

/-- The method `Warn(ctx, msg, args...)`; returns the log afterwards. -/
def Logger.Warn (l : Logger) (msg : String) (args : List String) : Log :=
  if l.toConfig.LogLevel ≥ gormlogger.Warn && l.log.Enabled .WarnLevel then
    OnWarnContext.Printf msg args l.log
  else
    l.log

/-- The method `Error(ctx, msg, args...)`; returns the log afterwards. -/
def Logger.Error (l : Logger) (msg : String) (args : List String) : Log :=
  if l.toConfig.LogLevel ≥ gormlogger.Error && l.log.Enabled .ErrorLevel then
    OnErrorContext.Printf msg args l.log
  else
    l.log

/-- The hook of `Trace` that renders the row count. -/
def rowsHook (rows : Int) : Unit → Field := fun _ =>
  if rows = -1 then
    logger.String "rows" (goString "-")
  else
    logger.Int64 "rows" rows

/-- The method `Trace(ctx, begin, f, err)`; returns the log afterwards.
`since` is the clock reading `time.Since`, and `sprintf` the text
`fmt.Sprintf("SLOW SQL >= %v", d)` of a duration. -/
def Logger.Trace (l : Logger) (since : Int → Int) (sprintf : Int → Bytes)
    (begin : Int) (f : Unit → String × Int) (err : Option GoError) : Log :=
  if l.toConfig.LogLevel ≤ gormlogger.Silent then
    l.log
  else
    let elapsed := since begin
    if err.isSome &&
        l.toConfig.LogLevel ≥ gormlogger.Error &&
        l.log.Enabled .ErrorLevel &&
        (!l.toConfig.IgnoreRecordNotFoundError ||
          !(err.elim false GoError.isRecordNotFound)) then
      let (sql, rows) := f ()
      (((((OnErrorContext.Error err).Duration "latency" elapsed).DoHookFunc
        (rowsHook rows)).String "sql" (goString sql)).Msg "trace") l.log
    else if elapsed > l.toConfig.SlowThreshold &&
        l.toConfig.SlowThreshold ≠ 0 &&
        l.toConfig.LogLevel ≥ gormlogger.Warn &&
        l.log.Enabled .WarnLevel then
      let (sql, rows) := f ()
      ((((((OnErrorContext.Error err).String "slow!!!"
        (sprintf l.toConfig.SlowThreshold)).Duration "latency" elapsed).DoHookFunc
        (rowsHook rows)).String "sql" (goString sql)).Msg "trace") l.log
    else if l.toConfig.LogLevel = gormlogger.Info && l.log.Enabled .InfoLevel then
      let (sql, rows) := f ()
      (((((OnInfoContext.Error err).Duration "latency" elapsed).DoHookFunc
        (rowsHook rows)).String "sql" (goString sql)).Msg "trace") l.log
    else
      l.log

end gormzap

/-! ## Standard-library helpers used by gzap -/

namespace strings

/-- The function `strings.ToLower`, on the ASCII letters (letters outside
ASCII are left as they are). -/
def ToLower (s : String) : String := String.mk (s.toList.map Char.toLower)

/-- Whether `sub` occurs in `l` as a contiguous segment. -/
def containsList (sub : List Char) : List Char → Bool
  | [] => sub.isEmpty
  | c :: cs => sub.isPrefixOf (c :: cs) || containsList sub cs

/-- The function `strings.Contains(s, substr)`. -/
def Contains (s substr : String) : Bool := containsList substr.toList s.toList

end strings

/-! ## The gin request context, as seen by a middleware -/

namespace gin

/-- A request body stream: the bytes it still yields, the error its reads end
with (`none` for a clean end of stream), and whether it was closed. -/
structure Body where
  data : Bytes
  err : Option GoError
  closed : Bool
  deriving DecidableEq, Repr

/-- The call `io.ReadAll(body)`: the bytes read, the error, and the drained stream. -/
def Body.ReadAll (b : Body) : Bytes × Option GoError × Body :=
  (b.data, b.err, { b with data := [] })

/-- The method `Close()`. -/
def Body.Close (b : Body) : Body := { b with closed := true }

/-- The value `io.NopCloser(bytes.NewBuffer(buf))`. -/
def NopCloser (buf : Bytes) : Body := { data := buf, err := none, closed := false }

/-- The part of `url.URL` the middleware reads. -/
structure URL where
  Path : String
  RawQuery : String
  deriving DecidableEq, Repr

/-- The part of `http.Request` the middleware reads or replaces. -/
structure Request where
  Method : String
  URL : URL
  Header : String → String
  UserAgent : String
  Body : Body

/-- The response writer: the status, the bytes written to the client, every
status passed to `WriteHeader` so far, and the `strings.Builder` of each
`bodyWriter` wrapped around it, innermost first. -/
structure ResponseWriter where
  status : Int
  written : Bytes
  headerCalls : List Int
  dupBody : List Bytes
  deriving DecidableEq, Repr

namespace ResponseWriter

/-- The method `Status()`. -/
def Status (w : ResponseWriter) : Int := w.status

/-- The method `WriteHeader(code)`: the writer takes the status it is given.
Whether gin still lets a status change once the headers are on the wire is
gin's business and is not represented. -/
def WriteHeader (w : ResponseWriter) (code : Int) : ResponseWriter :=
  { w with status := code, headerCalls := w.headerCalls ++ [code] }

/-- The method `Write(b)`: every `bodyWriter` copies `b` into its builder and
passes it on to the writer it wraps. -/
def Write (w : ResponseWriter) (b : Bytes) : ResponseWriter :=
  { w with dupBody := w.dupBody.map (fun d => d ++ b), written := w.written ++ b }

/-- The method `WriteString(s)`: as `Write`, through `bodyWriter.WriteString`. -/
def WriteString (w : ResponseWriter) (s : Bytes) : ResponseWriter :=
  { w with dupBody := w.dupBody.map (fun d => d ++ s), written := w.written ++ s }

end ResponseWriter

/-- The `*gin.Context`. -/
structure Context where
  Request : Request
  Writer : ResponseWriter
  Errors : List GoError
  aborted : Bool
  FullPath : String
  ClientIP : String

namespace Context

/-- The method `Status(code)`. -/
def Status (c : Context) (code : Int) : Context :=
  { c with Writer := c.Writer.WriteHeader code }

/-- The method `Error(err)`: record an error on the context. -/
def Error (c : Context) (err : GoError) : Context :=
  { c with Errors := c.Errors ++ [err] }

/-- The method `Abort()`. -/
def Abort (c : Context) : Context := { c with aborted := true }

/-- The method `AbortWithStatus(code)`. -/
def AbortWithStatus (c : Context) (code : Int) : Context := (c.Status code).Abort

/-- The method `String(code, text)`: set the status and write the text. -/
def String (c : Context) (code : Int) (text : String) : Context :=
  let c := c.Status code
  { c with Writer := c.Writer.WriteString (goString text) }

end Context

/-- One call a downstream handler makes on the context. -/
inductive Call where
  | Write (b : Bytes)
  | WriteString (s : Bytes)
  | Status (code : Int)
  | Error (err : GoError)
  | Abort
  | SetURL (u : URL)
  | ReadBody
  deriving DecidableEq, Repr

/-- The effect of one call. -/
def Call.run (call : Call) (c : Context) : Context :=
  match call with
  | .Write b => { c with Writer := c.Writer.Write b }
  | .WriteString s => { c with Writer := c.Writer.WriteString s }
  | .Status code => c.Status code
  | .Error err => c.Error err
  | .Abort => c.Abort
  | .SetURL u => { c with Request := { c.Request with URL := u } }
  | .ReadBody => { c with Request := { c.Request with Body := c.Request.Body.ReadAll.2.2 } }

/-- What the rest of the handler chain does: the calls it makes, in order, and
the value it panics with afterwards, if it panics. -/
structure Script where
  calls : List Call
  panics : Option PanicValue
  deriving DecidableEq, Repr

/-- The rest of the handler chain; its behaviour may depend on the context it is given. -/
abbrev HandlersChain := Context → Script

/-- How a handler ends: it returns, or a panic leaves it. -/
inductive Outcome where
  | returned (c : Context)
  | panicked (v : PanicValue) (c : Context)

/-- The context a handler leaves behind. -/
def Outcome.context : Outcome → Context
  | .returned c => c
  | .panicked _ c => c

/-- The method `Next()`: run the rest of the chain, unless the context is aborted. -/
def Context.Next (c : Context) (next : HandlersChain) : Outcome :=
  if c.aborted then
    .returned c
  else
    let s := next c
    let c := s.calls.foldl (fun c call => call.run c) c
    match s.panics with
    | none => .returned c
    | some v => .panicked v c

end gin

/-! ## Package gzap -/

namespace gzap

open logger gin

/-- The external `*httpcurl.HttpCurl`: its method `IntoCurl` receives the
request by pointer and yields the command text (empty on error). -/
structure HttpCurl where
  IntoCurl : Request → String × Request

/-- Standard-library calls whose results the middleware only passes on. -/
structure Std where
  /-- The call `mime.ParseMediaType(v)`; `none` when it reports an error. -/
  ParseMediaType : String → Option (String × List (String × String))
  /-- The call `httputil.DumpRequest(req, false)`. -/
  DumpRequest : Request → Bytes
  /-- The call `debug.Stack()`. -/
  Stack : Bytes
  /-- The call `time.Now()`. -/
  Now : Int
  /-- The call `time.Since(start)` made when the record is built. -/
  Since : Int → Int

/-- The struct `Config`.  The body toggle is read as one value for the whole
request. -/
structure Config where
  customFields : List (Context → Field)
  skipLogging : Context → Bool
  skipRequestBody : Context → Bool
  skipResponseBody : Context → Bool
  useLoggerLevel : Context → Level
  enableBody : Bool
  limit : Int
  debugCurl : Option HttpCurl

/-- The type `Option`: a function updating the config under construction. -/
abbrev ConfigOption := Config → Config

/-- The option `WithCustomFields(fields...)`. -/
def WithCustomFields (fields : List (Context → Field)) : ConfigOption :=
  fun c => { c with customFields := fields }

/-- The option `WithSkipLogging(f)`; a nil `f` is ignored. -/
def WithSkipLogging (f : Option (Context → Bool)) : ConfigOption :=
  fun c => match f with
    | some f => { c with skipLogging := f }
    | none => c

/-- The option `WithEnableBody(b)`. -/
def WithEnableBody (b : Bool) : ConfigOption :=
  fun c => { c with enableBody := b }

/-- The option `WithBodyLimit(limit)`. -/
def WithBodyLimit (limit : Int) : ConfigOption :=
  fun c => { c with limit := limit }

/-- The option `WithSkipRequestBody(f)`; a nil `f` is ignored. -/
def WithSkipRequestBody (f : Option (Context → Bool)) : ConfigOption :=
  fun c => match f with
    | some f => { c with skipRequestBody := f }
    | none => c

/-- The option `WithSkipResponseBody(f)`; a nil `f` is ignored. -/
def WithSkipResponseBody (f : Option (Context → Bool)) : ConfigOption :=
  fun c => match f with
    | some f => { c with skipResponseBody := f }
    | none => c

/-- The option `WithUseLoggerLevel(f)`; a nil `f` is ignored. -/
def WithUseLoggerLevel (f : Option (Context → Level)) : ConfigOption :=
  fun c => match f with
    | some f => { c with useLoggerLevel := f }
    | none => c

/-- The option `WithEnableDebugCurl(b)`; `new` is `httpcurl.New()`. -/
def WithEnableDebugCurl (new : HttpCurl) (b : Bool) : ConfigOption :=
  fun c => if b then { c with debugCurl := some new } else { c with debugCurl := none }

/-- The function `skipRequestBody`: multipart bodies with a boundary are skipped. -/
def skipRequestBody (std : Std) (c : Context) : Bool :=
  let v := c.Request.Header "Content-Type"
  match std.ParseMediaType v with
  | none => false
  | some (d, params) =>
    if d ≠ "multipart/form-data" && d ≠ "multipart/mixed" then
      false
    else
      (params.lookup "boundary").isSome

/-- The function `skipResponseBody`. -/
def skipResponseBody (_c : Context) : Bool := false

/-- Status 500, `http.StatusInternalServerError`. -/
def StatusInternalServerError : Int := 500
/-- Status 511, `http.StatusNetworkAuthenticationRequired`. -/
def StatusNetworkAuthenticationRequired : Int := 511
/-- Status 400, `http.StatusBadRequest`. -/
def StatusBadRequest : Int := 400
/-- Status 451, `http.StatusUnavailableForLegalReasons`. -/
def StatusUnavailableForLegalReasons : Int := 451
/-- Status 401, `http.StatusUnauthorized`. -/
def StatusUnauthorized : Int := 401

/-- The function `useLoggerLevel`, the default level selector. -/
def useLoggerLevel (c : Context) : Level :=
  let status := c.Writer.Status
  if status ≥ StatusInternalServerError &&
      status ≤ StatusNetworkAuthenticationRequired then
    .ErrorLevel
  else if status ≥ StatusBadRequest &&
      status ≤ StatusUnavailableForLegalReasons &&
      status ≠ StatusUnauthorized then
    .WarnLevel
  else
    .InfoLevel

/-- The function `newConfig`. -/
def newConfig : Config :=
  { customFields := []
    skipLogging := fun _ => false
    skipRequestBody := fun _ => false
    skipResponseBody := fun _ => false
    useLoggerLevel := useLoggerLevel
    enableBody := false
    limit := 0
    debugCurl := none }

/-- The loop `for _, opt := range opts { opt(&cfg) }`. -/
def applyOptions (opts : List ConfigOption) : Config :=
  opts.foldl (fun cfg opt => opt cfg) newConfig

/-- What the handler of `Logger` holds when it reaches `c.Next()`. -/
structure Captured where
  c : Context
  respBodyBuilder : Option Nat
  reqBody : Bytes
  debugCurl : String
  start : Int
  path : String
  query : String

/-- The handler of `Logger` up to `c.Next()`.  The result is `.error c` when
the handler returns early (the body could not be read). -/
def Logger.before (std : Std) (cfg : Config) (c : Context) : Except Context Captured :=
  let reqBody := goString "skip request body"
  let debugCurl := ""
  let hasSkipRequestBody := skipRequestBody std c || cfg.skipRequestBody c
  let captured : Except Context (Context × Option Nat × Bytes) :=
    if cfg.enableBody then
      let builder := c.Writer.dupBody.length
      let c := { c with Writer := { c.Writer with dupBody := c.Writer.dupBody ++ [[]] } }
      if !hasSkipRequestBody then
        let (reqBodyBuf, err, body) := c.Request.Body.ReadAll
        let c := { c with Request := { c.Request with Body := body } }
        match err with
        | some err =>
          .error ((c.String StatusInternalServerError err.Error).Abort)
        | none =>
          let c := { c with Request := { c.Request with Body := c.Request.Body.Close } }
          let c := { c with Request := { c.Request with Body := NopCloser reqBodyBuf } }
          if cfg.limit > 0 && (reqBodyBuf.length : Int) ≥ cfg.limit then
            .ok (c, some builder, goString "larger request body")
          else
            .ok (c, some builder, reqBodyBuf)
      else
        .ok (c, some builder, reqBody)
    else
      .ok (c, none, reqBody)
  match captured with
  | .error c => .error c
  | .ok (c, builder, reqBody) =>
    let (debugCurl, c) :=
      match !hasSkipRequestBody, cfg.debugCurl with
      | true, some curl =>
        let (text, req) := curl.IntoCurl c.Request
        (text, { c with Request := req })
      | _, _ => (debugCurl, c)
    .ok
      { c := c
        respBodyBuilder := builder
        reqBody := reqBody
        debugCurl := debugCurl
        start := std.Now
        path := c.Request.URL.Path
        query := c.Request.URL.RawQuery }

/-- The content of the handler's `respBodyBuilder`. -/
def Captured.respBody (k : Captured) (c : Context) : Bytes :=
  match k.respBodyBuilder with
  | some i => c.Writer.dupBody.getD i []
  | none => []

/-- The function passed to `Configure` in the deferred function of `Logger`. -/
def Logger.configure (cfg : Config) (k : Captured) (c : Context) (e : Event) : Event :=
  let e :=
    if cfg.enableBody then
      let respBody :=
        if !(skipResponseBody c || cfg.skipResponseBody c) then
          if cfg.limit > 0 && ((k.respBody c).length : Int) ≥ cfg.limit then
            goString "larger response body"
          else
            k.respBody c
        else
          goString "skip response body"
      (e.String "requestBody" k.reqBody).String "responseBody" respBody
    else
      e
  let e := cfg.customFields.foldl (fun e fieldFunc => e.With (fieldFunc c)) e
  let e := if k.debugCurl ≠ "" then e.String "curl" (goString k.debugCurl) else e
  if c.Errors.length > 0 then
    c.Errors.foldl (fun e err => e.Error (some err)) e
  else
    e

/-- The deferred function of `Logger`, run on the context left by `c.Next()`. -/
def Logger.deferred (std : Std) (cfg : Config) (k : Captured) (log : Log) (c : Context) : Log :=
  if cfg.skipLogging c then
    log
  else
    let level :=
      if c.Errors.length > 0 then
        Level.ErrorLevel
      else
        cfg.useLoggerLevel c
    (((((((((((OnLevelContext level).Int "status" c.Writer.Status).String
      "method" (goString c.Request.Method)).String
      "path" (goString k.path)).String
      "route" (goString c.FullPath)).String
      "query" (goString k.query)).String
      "ip" (goString c.ClientIP)).String
      "user-agent" (goString c.Request.UserAgent)).Duration
      "latency" (std.Since k.start)).Configure
      (Logger.configure cfg k c)).Msg "logging") log

/-- The handler returned by `Logger`, for a given config: the log afterwards
and how the handler ends. -/
def Logger.handler (std : Std) (cfg : Config) (next : HandlersChain) (log : Log)
    (c : Context) : Log × Outcome :=
  match Logger.before std cfg c with
  | .error c => (log, .returned c)
  | .ok k =>
    let out := k.c.Next next
    (Logger.deferred std cfg k log out.context, out)

/-- The function `Logger(log, opts...)`. -/
def Logger (std : Std) (opts : List ConfigOption) (next : HandlersChain) (log : Log)
    (c : Context) : Log × Outcome :=
  Logger.handler std (applyOptions opts) next log c

/-- The classification of a recovered value as a broken connection. -/
def brokenPipe (err : PanicValue) : Bool :=
  match err with
  | .error (.opError _ _ (.syscallError syscall inner)) =>
    let se := GoError.syscallError syscall inner
    strings.Contains (strings.ToLower se.Error) "broken pipe" ||
      strings.Contains (strings.ToLower se.Error) "connection reset by peer"
  | _ => false

/-- The type assertion `err.(error)`; `none` when it fails. -/
def asError : PanicValue → Option GoError
  | .error e => some e
  | .value _ => none

/-- The handler returned by `Recovery`, for a given config. -/
def Recovery.handler (std : Std) (stack : Bool) (cfg : Config) (next : HandlersChain)
    (log : Log) (c : Context) : Log × Outcome :=
  match c.Next next with
  | .returned c => (log, .returned c)
  | .panicked err c =>
    let httpRequest := std.DumpRequest c.Request
    if brokenPipe err then
      let log := (((OnErrorContext.Any "error" err).ByteString
        "request" httpRequest).Msg c.Request.URL.Path) log
      match asError err with
      | none =>
        (log, .panicked (.error (.new "interface conversion: interface is not error")) c)
      | some e =>
        let c := c.Error e
        (log, .returned c.Abort)
    else
      let log := ((((OnErrorContext.Any "error" err).ByteString
        "request" httpRequest).Configure (fun e =>
          let e := cfg.customFields.foldl (fun e fieldFunc => e.With (fieldFunc c)) e
          if stack then e.ByteString "stack" std.Stack else e)).Msg
        "recovery from panic") log
      (log, .returned (c.AbortWithStatus StatusInternalServerError))

/-- The function `Recovery(log, stack, opts...)`. -/
def Recovery (std : Std) (stack : Bool) (opts : List ConfigOption) (next : HandlersChain)
    (log : Log) (c : Context) : Log × Outcome :=
  Recovery.handler std stack (applyOptions opts) next log c

end gzap

/-! ## Reading a record, and concrete inputs -/

/-- The value of the first field of a record with the given key. -/
def logger.Record.get (r : logger.Record) (key : logger.Key) : Option logger.FieldValue :=
  (r.fields.find? (fun f => f.key == key)).map (fun f => f.value)

/-- The value a handler panicked with, if it did. -/
def gin.Outcome.panic : gin.Outcome → Option PanicValue
  | .returned _ => none
  | .panicked v _ => some v

/-- A log with every level enabled and no record yet. -/
def logger.openLog : logger.Log := ⟨fun _ => true, []⟩

/-- The ORM logger in its default configuration (log level warn, slow threshold 200ms). -/
def gormzap.defaultLogger : gormzap.Logger := gormzap.New logger.openLog []

/-- The ORM logger of the repository's example: log level info. -/
def gormzap.infoLogger : gormzap.Logger :=
  gormzap.New logger.openLog
    [gormzap.WithConfig
      { SlowThreshold := 200 * gormzap.Millisecond
        Colorful := false
        IgnoreRecordNotFoundError := false
        LogLevel := gormlogger.Info }]

/-- A statement callback. -/
def gormzap.selectOne : Unit → String × Int := fun _ => ("SELECT 1", 1)

/-- The text of the slow-query field for the default threshold. -/
def gormzap.slowText : Int → Bytes := fun _ => goString "SLOW SQL >= 200ms"

/-- Standard-library results for the concrete requests below: no media type,
an empty request dump and stack, a clock that stands still. -/
def gzap.std : gzap.Std :=
  { ParseMediaType := fun _ => none
    DumpRequest := fun _ => []
    Stack := []
    Now := 0
    Since := fun _ => 0 }

/-- A request `POST /ping` with the given body stream. -/
def gzap.request (body : gin.Body) : gin.Request :=
  { Method := "POST"
    URL := ⟨"/ping", ""⟩
    Header := fun _ => ""
    UserAgent := "curl"
    Body := body }

/-- A fresh context for `POST /ping`: status 200, nothing written. -/
def gzap.context (body : gin.Body) : gin.Context :=
  { Request := gzap.request body
    Writer := ⟨200, [], [], []⟩
    Errors := []
    aborted := false
    FullPath := "/ping"
    ClientIP := "127.0.0.1" }

/-- A body stream holding the given bytes. -/
def gzap.bodyOf (data : Bytes) : gin.Body := ⟨data, none, false⟩

/-- A body stream whose read fails after one byte. -/
def gzap.brokenBody : gin.Body := ⟨[97], some (.new "unexpected EOF"), false⟩

/-- A downstream chain making the given calls and returning. -/
def gzap.calls (cs : List gin.Call) : gin.HandlersChain := fun _ => ⟨cs, none⟩

/-- A downstream chain panicking with the given value. -/
def gzap.panics (v : PanicValue) : gin.HandlersChain := fun _ => ⟨[], some v⟩

/-- The bytes a list of calls writes to the response. -/
def gin.written : List gin.Call → Bytes
  | [] => []
  | .Write b :: cs => b ++ gin.written cs
  | .WriteString s :: cs => s ++ gin.written cs
  | _ :: cs => gin.written cs

/-- A broken-pipe panic value: `write tcp: write: broken pipe`. -/
def gzap.brokenPipeError : GoError :=
  .opError "write" "tcp" (.syscallError "write" (.new "Broken pipe"))

/-- The event the deferred function of `Logger` has built when it reaches
`Configure`, for a given level. -/
def gzap.Logger.event (std : gzap.Std) (k : gzap.Captured) (c : gin.Context)
    (level : logger.Level) : logger.Event :=
  ((((((((logger.OnLevelContext level).Int "status" c.Writer.Status).String
    "method" (goString c.Request.Method)).String
    "path" (goString k.path)).String
    "route" (goString c.FullPath)).String
    "query" (goString k.query)).String
    "ip" (goString c.ClientIP)).String
    "user-agent" (goString c.Request.UserAgent)).Duration
    "latency" (std.Since k.start)

/-- A debug-curl helper that reads the request body to its end while it
renders the command and hands the request back with the stream drained. -/
def gzap.drainingCurl : gzap.HttpCurl :=
  ⟨fun r => ("curl -X POST /ping", { r with Body := r.Body.ReadAll.2.2 })⟩

/-- A debug-curl helper that renders a fixed command and leaves the request alone. -/
def gzap.curl : gzap.HttpCurl := ⟨fun r => ("curl -X POST /ping", r)⟩

/-! ## Package pprof -/

namespace gin

/-- The handlers `Router` wraps with `gin.WrapF` and `gin.WrapH`. -/
inductive WrappedHandler where
  | pprofIndex
  | pprofCmdline
  | pprofProfile
  | pprofSymbol
  | pprofTrace
  | pprofHandler (name : String)
  | expvarHandler
  deriving DecidableEq, Repr

/-- One entry of the engine's route table: method, absolute path, handler. -/
structure RouteInfo where
  Method : String
  Path : String
  Handler : WrappedHandler
  deriving DecidableEq, Repr

/-- A `gin.IRouter`: a router group of an engine, given by its base path, the
engine's route table (oldest registration first) and gin's own path joining,
which the repository does not define. -/
structure IRouter where
  joinPaths : String → String → String
  basePath : String
  routes : List RouteInfo

namespace IRouter

/-- The method `Group(relativePath)`: a group of the same engine, one level down. -/
def Group (g : IRouter) (relativePath : String) : IRouter :=
  { g with basePath := g.joinPaths g.basePath relativePath }

/-- The registration behind `GET` and `POST`: one more entry in the route table. -/
def handle (g : IRouter) (httpMethod relativePath : String) (h : WrappedHandler) : IRouter :=
  { g with routes := g.routes ++ [⟨httpMethod, g.joinPaths g.basePath relativePath, h⟩] }

/-- The method `GET(relativePath, handler)`. -/
def GET (g : IRouter) (relativePath : String) (h : WrappedHandler) : IRouter :=
  g.handle "GET" relativePath h

/-- The method `POST(relativePath, handler)`. -/
def POST (g : IRouter) (relativePath : String) (h : WrappedHandler) : IRouter :=
  g.handle "POST" relativePath h

end IRouter

end gin

namespace pprof

open gin

/-- The constant `defaultPrefix`. -/
def defaultPrefix : String := "/debug/pprof"

/-- The function `Router(g, prefixOptions...)`; returns `g` with the engine's
route table afterwards.  The group `r` and `g` belong to one engine, so the
routes registered on `r` are in the table when `g` registers its own. -/
def Router (g : IRouter) (prefixOptions : List String) : IRouter :=
  let pathPrefix :=
    match prefixOptions with
    | [] => defaultPrefix
    | first :: _ => first
  let r := g.Group pathPrefix
  let r := r.GET "/" .pprofIndex
  let r := r.GET "/cmdline" .pprofCmdline
  let r := r.GET "/profile" .pprofProfile
  let r := r.POST "/symbol" .pprofSymbol
  let r := r.GET "/symbol" .pprofSymbol
  let r := r.GET "/trace" .pprofTrace
  let r := r.GET "/allocs" (.pprofHandler "allocs")
  let r := r.GET "/block" (.pprofHandler "block")
  let r := r.GET "/goroutine" (.pprofHandler "goroutine")
  let r := r.GET "/heap" (.pprofHandler "heap")
  let r := r.GET "/mutex" (.pprofHandler "mutex")
  let r := r.GET "/threadcreate" (.pprofHandler "threadcreate")
  let g := { g with routes := r.routes }
  g.GET "/debug/vars" .expvarHandler

/-- A path joining for concrete runs: plain concatenation onto a base path
without a trailing slash. -/
def concatPaths (absolutePath relativePath : String) : String :=
  (if absolutePath = "/" then "" else absolutePath) ++ relativePath

/-- The engine of the repository's example: base path "/", no route yet. -/
def engine : IRouter := ⟨concatPaths, "/", []⟩

end pprof

/-! ## Theorems: package gormzap -/

namespace gormzap

open logger hiding String Int64

/-- C3 (refuted as stated): with the default configuration, a statement that
took one millisecond and returned no error makes `Trace` emit no record. -/
theorem trace_default_fast_query_emits_nothing :
    ¬ ∃ r, (defaultLogger.Trace (fun _ => Millisecond) slowText 0 selectOne none).records
      = defaultLogger.log.records ++ [r] := by
  rintro ⟨r, h⟩
  have h0 : (defaultLogger.Trace (fun _ => Millisecond) slowText 0 selectOne none).records
      = [] := by decide
  have h1 : defaultLogger.log.records = [] := by decide
  rw [h0, h1] at h
  simp at h

/-- C3 (amended): `Trace` emits at most one record per call.  It emits exactly
one when the log level is above silent and one of its three cases applies
(an error that is to be reported, with error logging on; a statement slower
than a non-zero threshold, with warn logging on; log level info, with info
logging on), and none otherwise. -/
theorem trace_emits_one_record_iff_case (l : Logger) (since : Int → Int)
    (sprintf : Int → Bytes) (begin : Int) (f : Unit → String × Int) (err : Option GoError) :
    ((l.toConfig.LogLevel > gormlogger.Silent ∧
        ((err ≠ none ∧ l.toConfig.LogLevel ≥ gormlogger.Error ∧
            l.log.Enabled .ErrorLevel = true ∧
            (l.toConfig.IgnoreRecordNotFoundError = false ∨
              err.elim false GoError.isRecordNotFound = false)) ∨
          (since begin > l.toConfig.SlowThreshold ∧ l.toConfig.SlowThreshold ≠ 0 ∧
            l.toConfig.LogLevel ≥ gormlogger.Warn ∧ l.log.Enabled .WarnLevel = true) ∨
          (l.toConfig.LogLevel = gormlogger.Info ∧ l.log.Enabled .InfoLevel = true))) →
      ∃ r, (l.Trace since sprintf begin f err).records = l.log.records ++ [r]) ∧
    (¬ (l.toConfig.LogLevel > gormlogger.Silent ∧
        ((err ≠ none ∧ l.toConfig.LogLevel ≥ gormlogger.Error ∧
            l.log.Enabled .ErrorLevel = true ∧
            (l.toConfig.IgnoreRecordNotFoundError = false ∨
              err.elim false GoError.isRecordNotFound = false)) ∨
          (since begin > l.toConfig.SlowThreshold ∧ l.toConfig.SlowThreshold ≠ 0 ∧
            l.toConfig.LogLevel ≥ gormlogger.Warn ∧ l.log.Enabled .WarnLevel = true) ∨
          (l.toConfig.LogLevel = gormlogger.Info ∧ l.log.Enabled .InfoLevel = true))) →
      (l.Trace since sprintf begin f err).records = l.log.records) := by
  unfold Logger.Trace
  simp only [Event.Msg, gormlogger.Silent, gormlogger.Error, gormlogger.Warn,
    gormlogger.Info, Bool.and_eq_true, Bool.or_eq_true, decide_eq_true_eq,
    Bool.not_eq_true', ge_iff_le, gt_iff_lt, ne_eq]
  have herr : err.isSome = true ↔ ¬ err = none := by cases err <;> simp
  constructor
  · intro h
    split_ifs with h1 h2 h3 h4
    · omega
    · exact ⟨_, rfl⟩
    · exact ⟨_, rfl⟩
    · exact ⟨_, rfl⟩
    · exfalso
      rw [herr] at h2
      tauto
  · intro h
    split_ifs with h1 h2 h3 h4
    · rfl
    · exfalso
      rw [herr] at h2
      exact h ⟨by omega, Or.inl ⟨h2.1.1.1, h2.1.1.2, h2.1.2, h2.2⟩⟩
    · exfalso
      exact h ⟨by omega, Or.inr (Or.inl ⟨h3.1.1.1, h3.1.1.2, h3.1.2, h3.2⟩)⟩
    · exfalso
      exact h ⟨by omega, Or.inr (Or.inr h4)⟩
    · rfl

/-- Witness for C3 (amended): at log level info a fast statement without error
is logged once, and in the default configuration it is not logged. -/
theorem trace_emits_one_record_iff_case_witness :
    (∃ r, (infoLogger.Trace (fun _ => Millisecond) slowText 0 selectOne none).records
      = infoLogger.log.records ++ [r]) ∧
    (defaultLogger.Trace (fun _ => Millisecond) slowText 0 selectOne none).records
      = defaultLogger.log.records :=
  ⟨(trace_emits_one_record_iff_case infoLogger (fun _ => Millisecond) slowText 0
      selectOne none).1 (by decide),
   (trace_emits_one_record_iff_case defaultLogger (fun _ => Millisecond) slowText 0
      selectOne none).2 (by decide)⟩

/-- C4 (the code at the failing input): whenever the slow-statement case of
`Trace` is the one taken (no error, the elapsed time above a non-zero
threshold, log level at least warn, warn logging on), the record is emitted at
error level, where the claim says warn. -/
theorem trace_slow_statement_logged_at_error_level (l : Logger) (since : Int → Int)
    (sprintf : Int → Bytes) (begin : Int) (f : Unit → String × Int)
    (hslow : since begin > l.toConfig.SlowThreshold)
    (hthreshold : l.toConfig.SlowThreshold ≠ 0)
    (hlevel : l.toConfig.LogLevel ≥ gormlogger.Warn)
    (henabled : l.log.Enabled .WarnLevel = true) :
    ∃ r, (l.Trace since sprintf begin f none).records = l.log.records ++ [r] ∧
      r.level = .ErrorLevel := by
  unfold Logger.Trace
  simp only [gormlogger.Silent, gormlogger.Warn] at *
  rw [if_neg (by omega)]
  simp only [Option.isSome_none, Bool.false_and, Bool.false_eq_true, if_false]
  rw [if_pos (by simp [hslow, hthreshold, henabled, gormlogger.Warn]; omega)]
  exact ⟨_, rfl, rfl⟩

/-- Witness for C4: default configuration, a statement that took 300ms. -/
theorem trace_slow_statement_logged_at_error_level_witness :
    ∃ r, (defaultLogger.Trace (fun _ => 300 * Millisecond) slowText 0 selectOne
        none).records = defaultLogger.log.records ++ [r] ∧
      r.level = .ErrorLevel :=
  trace_slow_statement_logged_at_error_level defaultLogger (fun _ => 300 * Millisecond)
    slowText 0 selectOne (by decide) (by decide) (by decide) (by decide)

/-- C10 (the code at the failing input): whenever `Info` emits (log level at
least info, info logging on), the record is emitted at debug level, where the
claim says info. -/
theorem info_callback_logs_at_debug_level (l : Logger) (msg : String) (args : List String)
    (hlevel : l.toConfig.LogLevel ≥ gormlogger.Info)
    (henabled : l.log.Enabled .InfoLevel = true) :
    (l.Info msg args).records = l.log.records ++ [⟨.DebugLevel, [], msg, args⟩] := by
  unfold Logger.Info
  rw [if_pos (by simp [hlevel, henabled])]
  rfl

/-- Witness for C10: the logger of the repository's example, message "hello". -/
theorem info_callback_logs_at_debug_level_witness :
    (infoLogger.Info "hello" []).records
      = infoLogger.log.records ++ [⟨.DebugLevel, [], "hello", []⟩] :=
  info_callback_logs_at_debug_level infoLogger "hello" [] (by decide) (by decide)

/-- The callback `Warn` emits one record at warn level when the log level is at
least warn and warn logging is on, and nothing otherwise. -/
theorem warn_callback_logs_at_warn_level (l : Logger) (msg : String) (args : List String) :
    (l.Warn msg args).records =
      if l.toConfig.LogLevel ≥ gormlogger.Warn ∧ l.log.Enabled .WarnLevel = true then
        l.log.records ++ [⟨.WarnLevel, [], msg, args⟩]
      else l.log.records := by
  unfold Logger.Warn
  by_cases h1 : l.toConfig.LogLevel ≥ gormlogger.Warn <;>
    by_cases h2 : l.log.Enabled .WarnLevel = true <;> simp [h1, h2, Event.Printf, OnWarnContext, OnErrorContext, OnLevelContext]

/-- The callback `Error` emits one record at error level when the log level is
at least error and error logging is on, and nothing otherwise. -/
theorem error_callback_logs_at_error_level (l : Logger) (msg : String) (args : List String) :
    (l.Error msg args).records =
      if l.toConfig.LogLevel ≥ gormlogger.Error ∧ l.log.Enabled .ErrorLevel = true then
        l.log.records ++ [⟨.ErrorLevel, [], msg, args⟩]
      else l.log.records := by
  unfold Logger.Error
  by_cases h1 : l.toConfig.LogLevel ≥ gormlogger.Error <;>
    by_cases h2 : l.log.Enabled .ErrorLevel = true <;> simp [h1, h2, Event.Printf, OnWarnContext, OnErrorContext, OnLevelContext]

end gormzap

/-! ## Theorems: package gzap -/

namespace gzap

open logger hiding String Int64
open gin

/-- Attaching a field appends it. -/
theorem With_fields (e : Event) (f : Field) : (e.With f).fields = e.fields ++ [f] := rfl

/-- Attaching a field keeps the level. -/
theorem With_level (e : Event) (f : Field) : (e.With f).level = e.level := rfl

/-- Attaching fields one by one appends them, in order. -/
theorem foldl_With_fields {α : Type} (g : α → Field) (xs : List α) (e : Event) :
    (xs.foldl (fun e x => e.With (g x)) e).fields = e.fields ++ xs.map g := by
  induction xs generalizing e with
  | nil => simp
  | cons x xs ih =>
    simp only [List.foldl_cons, List.map_cons]
    rw [ih, With_fields]
    simp

/-- Attaching fields does not change the level of an event. -/
theorem foldl_With_level {α : Type} (g : α → Field) (xs : List α) (e : Event) :
    (xs.foldl (fun e x => e.With (g x)) e).level = e.level := by
  induction xs generalizing e with
  | nil => simp
  | cons x xs ih =>
    simp only [List.foldl_cons]
    rw [ih, With_level]

/-- The function passed to `Configure` only appends fields. -/
theorem configure_fields (cfg : Config) (k : Captured) (c : Context) (e : Event) :
    ∃ extra, (Logger.configure cfg k c e).fields = e.fields ++ extra := by
  unfold Logger.configure
  simp only [Event.Error, Event.String]
  split_ifs <;>
    simp only [foldl_With_fields, With_fields, List.append_assoc] <;>
    exact ⟨_, rfl⟩

/-- The function passed to `Configure` keeps the level. -/
theorem configure_level (cfg : Config) (k : Captured) (c : Context) (e : Event) :
    (Logger.configure cfg k c e).level = e.level := by
  unfold Logger.configure
  simp only [Event.Error, Event.String]
  split_ifs <;> simp only [foldl_With_level, With_level]

/-- With body capture on, the function passed to `Configure` starts with the
two body fields. -/
theorem configure_fields_enableBody (cfg : Config) (k : Captured) (c : Context) (e : Event)
    (h : cfg.enableBody = true) :
    ∃ extra, (Logger.configure cfg k c e).fields = e.fields ++
      (⟨"requestBody", .string k.reqBody⟩ ::
       ⟨"responseBody", .string
          (if !(skipResponseBody c || cfg.skipResponseBody c) then
            if cfg.limit > 0 && ((k.respBody c).length : Int) ≥ cfg.limit then
              goString "larger response body"
            else k.respBody c
          else goString "skip response body")⟩ :: extra) := by
  unfold Logger.configure
  simp only [Event.Error, Event.String, h, if_true]
  split_ifs <;>
    simp only [foldl_With_fields, With_fields, List.append_assoc, List.singleton_append,
      List.cons_append] <;>
    exact ⟨_, rfl⟩

/-- The fields every record of `Logger` starts with. -/
theorem event_fields (std : Std) (k : Captured) (c : Context) (level : Level) :
    (Logger.event std k c level).fields =
    [⟨"status", .int c.Writer.status⟩, ⟨"method", .string (goString c.Request.Method)⟩,
     ⟨"path", .string (goString k.path)⟩, ⟨"route", .string (goString c.FullPath)⟩,
     ⟨"query", .string (goString k.query)⟩, ⟨"ip", .string (goString c.ClientIP)⟩,
     ⟨"user-agent", .string (goString c.Request.UserAgent)⟩,
     ⟨"latency", .duration (std.Since k.start)⟩] := rfl

/-- The deferred function of `Logger` finishes the event built so far. -/
theorem deferred_eq (std : Std) (cfg : Config) (k : Captured) (log : Log) (c : Context) :
    Logger.deferred std cfg k log c =
      if cfg.skipLogging c then log
      else ((Logger.event std k c
        (if c.Errors.length > 0 then Level.ErrorLevel else cfg.useLoggerLevel c)).Configure
          (Logger.configure cfg k c)).Msg "logging" log := rfl

/-- The deferred function of `Logger`, when logging is not skipped, hands
exactly one record to the logger: at error level if errors were recorded and
at the selector's level otherwise, with the status of the context it runs on,
and, with body capture on, with the two body fields. -/
theorem deferred_record (std : Std) (cfg : Config) (k : Captured) (log : Log) (c : Context)
    (h : cfg.skipLogging c = false) :
    ∃ r, (Logger.deferred std cfg k log c).records = log.records ++ [r] ∧
      r.level = (if c.Errors.length > 0 then Level.ErrorLevel else cfg.useLoggerLevel c) ∧
      r.get "status" = some (.int c.Writer.status) ∧
      (cfg.enableBody = true →
        r.get "requestBody" = some (.string k.reqBody) ∧
        r.get "responseBody" = some (.string
          (if !(skipResponseBody c || cfg.skipResponseBody c) then
            if cfg.limit > 0 && ((k.respBody c).length : Int) ≥ cfg.limit then
              goString "larger response body"
            else k.respBody c
          else goString "skip response body"))) := by
  rw [deferred_eq]
  simp only [h, Bool.false_eq_true, if_false, Event.Msg, Event.Configure]
  refine ⟨_, rfl, ?_, ?_, ?_⟩
  · simp only [configure_level]
    rfl
  · obtain ⟨extra, hx⟩ := configure_fields cfg k c (Logger.event std k c
      (if c.Errors.length > 0 then Level.ErrorLevel else cfg.useLoggerLevel c))
    simp only [Record.get, hx, event_fields]
    rfl
  · intro hb
    obtain ⟨extra, hx⟩ := configure_fields_enableBody cfg k c (Logger.event std k c
      (if c.Errors.length > 0 then Level.ErrorLevel else cfg.useLoggerLevel c)) hb
    simp only [Record.get, hx, event_fields]
    exact ⟨rfl, rfl⟩

/-- The handler of `Logger` reaches `c.Next()` unless a body read it performs
fails; it then holds the request body text it will log, the builder of the
writer it installed, and a context that differs from the one it was given only
in the writer wrapper and the request. -/
theorem before_ok (std : Std) (cfg : Config) (c : Context)
    (hread : cfg.enableBody = true →
      (skipRequestBody std c || cfg.skipRequestBody c) = false →
      c.Request.Body.err = none) :
    ∃ k, Logger.before std cfg c = .ok k ∧
      k.c.Writer = (if cfg.enableBody then
        { c.Writer with dupBody := c.Writer.dupBody ++ [[]] } else c.Writer) ∧
      k.respBodyBuilder = (if cfg.enableBody then some c.Writer.dupBody.length else none) ∧
      k.c.aborted = c.aborted ∧ k.c.Errors = c.Errors ∧
      (cfg.enableBody = true →
        (skipRequestBody std c || cfg.skipRequestBody c) = false →
        k.reqBody = (if cfg.limit > 0 && (c.Request.Body.data.length : Int) ≥ cfg.limit then
          goString "larger request body" else c.Request.Body.data)) := by
  unfold Logger.before
  cases hb : cfg.enableBody <;> cases hs : (skipRequestBody std c || cfg.skipRequestBody c) <;>
    cases hc : cfg.debugCurl <;> simp [hb, hs, hc, Body.ReadAll] at hread ⊢
  all_goals (simp only [hread]; split_ifs <;> simp [*])

/-- The handler of `Logger` returns early when the body read it performs fails. -/
theorem before_error (std : Std) (cfg : Config) (c : Context) (e : GoError)
    (hb : cfg.enableBody = true)
    (hs : (skipRequestBody std c || cfg.skipRequestBody c) = false)
    (he : c.Request.Body.err = some e) :
    ∃ c', Logger.before std cfg c = .error c' := by
  unfold Logger.before
  simp [hb, hs, he, Body.ReadAll]

/-- Running calls appends what they write to the response and to every builder. -/
theorem run_calls_writer (cs : List Call) (c : Context) :
    (cs.foldl (fun c call => call.run c) c).Writer.written
        = c.Writer.written ++ gin.written cs ∧
      (cs.foldl (fun c call => call.run c) c).Writer.dupBody
        = c.Writer.dupBody.map (fun d => d ++ gin.written cs) := by
  induction cs generalizing c with
  | nil => simp [gin.written]
  | cons call cs ih =>
    simp only [List.foldl_cons]
    obtain ⟨h1, h2⟩ := ih (call.run c)
    rw [h1, h2]
    cases call <;>
      simp [Call.run, gin.written, ResponseWriter.Write, ResponseWriter.WriteString,
        Context.Status, Context.Error, Context.Abort, ResponseWriter.WriteHeader]

/-- The rest of the chain appends what it writes to the response and to every builder. -/
theorem next_writer (c : Context) (next : HandlersChain) :
    ∃ resp, (c.Next next).context.Writer.written = c.Writer.written ++ resp ∧
      (c.Next next).context.Writer.dupBody = c.Writer.dupBody.map (fun d => d ++ resp) := by
  unfold Context.Next
  split_ifs with h
  · exact ⟨[], by simp [Outcome.context]⟩
  · refine ⟨gin.written (next c).calls, ?_⟩
    have := run_calls_writer (next c).calls c
    cases hp : (next c).panics <;> simpa [Outcome.context, hp] using this

/-- When the handler of `Logger` reaches `c.Next()`, it ends as the rest of the
chain ends, after the deferred function has run on the context left behind. -/
theorem handler_of_before_ok (std : Std) (cfg : Config) (next : HandlersChain) (log : Log)
    (c : Context) (k : Captured) (h : Logger.before std cfg c = .ok k) :
    Logger.handler std cfg next log c =
      (Logger.deferred std cfg k log (k.c.Next next).context, k.c.Next next) := by
  simp [Logger.handler, h]

/-- When the handler of `Logger` returns early, it logs nothing. -/
theorem handler_of_before_error (std : Std) (cfg : Config) (next : HandlersChain) (log : Log)
    (c c' : Context) (h : Logger.before std cfg c = .error c') :
    Logger.handler std cfg next log c = (log, .returned c') := by
  simp [Logger.handler, h]

/-- C1 (refuted as stated): with body capture on and a request body whose read
fails, the handler returns without a panic, logging is not skipped, and no
record is emitted. -/
theorem logger_failed_body_read_emits_no_record :
    ¬ ((Logger std [WithEnableBody true] (calls []) openLog (context brokenBody)).2.panic
          = none →
        (applyOptions [WithEnableBody true]).skipLogging
          (Logger std [WithEnableBody true] (calls []) openLog (context brokenBody)).2.context
          = false →
        ∃ r, (Logger std [WithEnableBody true] (calls []) openLog
              (context brokenBody)).1.records = openLog.records ++ [r] ∧
          r.get "status" = some (.int (Logger std [WithEnableBody true] (calls []) openLog
              (context brokenBody)).2.context.Writer.status)) := by
  intro h
  obtain ⟨r, hr, _⟩ := h (by decide) (by decide)
  have h0 : (Logger std [WithEnableBody true] (calls []) openLog
      (context brokenBody)).1.records = [] := by decide
  have h1 : openLog.records = [] := rfl
  rw [h0, h1] at hr
  simp at hr

/-- C1 (amended): for every configuration and every request in which the body
read, when the handler performs one (body capture on, body not skipped),
succeeds, and for which the skip-logging predicate returns false, the handler
emits exactly one record, and its "status" field is the response status when
the handler ends. -/
theorem logger_emits_one_record_with_final_status (std : Std) (cfg : Config)
    (next : HandlersChain) (log : Log) (c : Context)
    (hread : cfg.enableBody = true →
      (skipRequestBody std c || cfg.skipRequestBody c) = false →
      c.Request.Body.err = none)
    (_hpanic : (Logger.handler std cfg next log c).2.panic = none)
    (hskip : cfg.skipLogging (Logger.handler std cfg next log c).2.context = false) :
    ∃ r, (Logger.handler std cfg next log c).1.records = log.records ++ [r] ∧
      r.get "status" =
        some (.int (Logger.handler std cfg next log c).2.context.Writer.status) := by
  obtain ⟨k, hk, _⟩ := before_ok std cfg c hread
  rw [handler_of_before_ok std cfg next log c k hk] at hskip ⊢
  obtain ⟨r, hr, _, hs, _⟩ := deferred_record std cfg k log (k.c.Next next).context hskip
  exact ⟨r, hr, hs⟩

/-- Witness for C1 (amended): body capture on, body "abc", a handler that
answers 201. -/
theorem logger_emits_one_record_with_final_status_witness :
    ∃ r, (Logger.handler std (applyOptions [WithEnableBody true]) (calls [.Status 201])
          openLog (context (bodyOf [97, 98, 99]))).1.records = openLog.records ++ [r] ∧
      r.get "status" =
        some (.int (Logger.handler std (applyOptions [WithEnableBody true])
          (calls [.Status 201]) openLog
          (context (bodyOf [97, 98, 99]))).2.context.Writer.status) :=
  logger_emits_one_record_with_final_status std (applyOptions [WithEnableBody true])
    (calls [.Status 201]) openLog (context (bodyOf [97, 98, 99]))
    (fun _ _ => rfl) (by decide) (by decide)

/-- C5 (refuted as stated): with the default selector, a request answered with
status 599 and without recorded errors is logged at info level. -/
theorem logger_status_599_not_logged_at_error_level :
    ¬ (((Logger std [] (calls [.Status 599]) openLog
            (context (bodyOf []))).2.context.Writer.status ≥ 500 ∨
          (Logger std [] (calls [.Status 599]) openLog
            (context (bodyOf []))).2.context.Errors ≠ []) →
        ∃ r, (Logger std [] (calls [.Status 599]) openLog
              (context (bodyOf []))).1.records = openLog.records ++ [r] ∧
          r.level = .ErrorLevel) := by
  intro h
  obtain ⟨r, hr, hl⟩ := h (Or.inl (by decide))
  have h0 : (Logger std [] (calls [.Status 599]) openLog
      (context (bodyOf []))).1.records.map (fun r => r.level) = [.InfoLevel] := by decide
  have h1 : openLog.records = [] := rfl
  rw [hr, h1] at h0
  simp [hl] at h0

/-- C5 (amended): with the default level selector, for every request that the
handler logs: if the final response status is between 500 and 511, or at
least one error was recorded on the request context, the record's level is
error. -/
theorem logger_level_is_error (std : Std) (cfg : Config) (next : HandlersChain) (log : Log)
    (c : Context)
    (hselector : cfg.useLoggerLevel = useLoggerLevel)
    (hlogged : (Logger.handler std cfg next log c).1.records ≠ log.records)
    (hstatus :
      (500 ≤ (Logger.handler std cfg next log c).2.context.Writer.status ∧
        (Logger.handler std cfg next log c).2.context.Writer.status ≤ 511) ∨
      (Logger.handler std cfg next log c).2.context.Errors ≠ []) :
    ∃ r, (Logger.handler std cfg next log c).1.records = log.records ++ [r] ∧
      r.level = .ErrorLevel := by
  by_cases hread : cfg.enableBody = true →
      (skipRequestBody std c || cfg.skipRequestBody c) = false →
      c.Request.Body.err = none
  · obtain ⟨k, hk, _⟩ := before_ok std cfg c hread
    rw [handler_of_before_ok std cfg next log c k hk] at hlogged hstatus ⊢
    simp only at hlogged hstatus ⊢
    cases hskip : cfg.skipLogging (k.c.Next next).context with
    | true =>
      exfalso
      apply hlogged
      rw [deferred_eq]
      simp [hskip]
    | false =>
      obtain ⟨r, hr, hl, _⟩ := deferred_record std cfg k log (k.c.Next next).context hskip
      refine ⟨r, hr, ?_⟩
      rw [hl]
      split_ifs with he
      · rfl
      · rcases hstatus with hst | herr
        · rw [hselector]
          unfold useLoggerLevel
          simp [ResponseWriter.Status, StatusInternalServerError,
            StatusNetworkAuthenticationRequired, hst.1, hst.2]
        · exfalso
          apply he
          exact List.length_pos.mpr herr
  · exfalso
    push_neg at hread
    obtain ⟨hb, hs, he⟩ := hread
    obtain ⟨e, he⟩ := Option.ne_none_iff_exists'.mp he
    obtain ⟨c', hc'⟩ := before_error std cfg c e hb hs he
    rw [handler_of_before_error std cfg next log c c' hc'] at hlogged
    exact hlogged rfl

/-- Witness for C5 (amended): a request answered with status 503, and a
request on which an error was recorded. -/
theorem logger_level_is_error_witness :
    (∃ r, (Logger.handler std newConfig (calls [.Status 503]) openLog
          (context (bodyOf []))).1.records = openLog.records ++ [r] ∧
      r.level = .ErrorLevel) ∧
    (∃ r, (Logger.handler std newConfig (calls [.Error (.new "An error happen 1")]) openLog
          (context (bodyOf []))).1.records = openLog.records ++ [r] ∧
      r.level = .ErrorLevel) :=
  ⟨logger_level_is_error std newConfig (calls [.Status 503]) openLog (context (bodyOf []))
      rfl (by decide) (Or.inl (by decide)),
   logger_level_is_error std newConfig (calls [.Error (.new "An error happen 1")]) openLog
      (context (bodyOf [])) rfl (by decide) (Or.inr (by decide))⟩

/-- What the code does about the body limit, the boundary included: with body capture on, the
request body read and not skipped, logging and the response body not skipped,
the "requestBody" (resp. "responseBody") field of the record is the marker
"larger request body" (resp. "larger response body") exactly when the limit N
is positive and the body has at least N bytes, and the body's content
otherwise. -/
theorem logger_body_fields_marker_from_limit (std : Std) (cfg : Config)
    (next : HandlersChain) (log : Log) (c : Context)
    (henable : cfg.enableBody = true)
    (hrequest : (skipRequestBody std c || cfg.skipRequestBody c) = false)
    (hread : c.Request.Body.err = none)
    (hskip : cfg.skipLogging (Logger.handler std cfg next log c).2.context = false)
    (hresponse : cfg.skipResponseBody (Logger.handler std cfg next log c).2.context = false) :
    ∃ r resp, (Logger.handler std cfg next log c).1.records = log.records ++ [r] ∧
      (Logger.handler std cfg next log c).2.context.Writer.written
        = c.Writer.written ++ resp ∧
      r.get "requestBody" = some (.string
        (if cfg.limit > 0 ∧ (c.Request.Body.data.length : Int) ≥ cfg.limit then
          goString "larger request body" else c.Request.Body.data)) ∧
      r.get "responseBody" = some (.string
        (if cfg.limit > 0 ∧ (resp.length : Int) ≥ cfg.limit then
          goString "larger response body" else resp)) := by
  obtain ⟨k, hk, hw, hbuilder, _, _, hreq⟩ := before_ok std cfg c (fun _ _ => hread)
  rw [handler_of_before_ok std cfg next log c k hk] at hskip hresponse ⊢
  simp only at hskip hresponse ⊢
  obtain ⟨r, hr, _, _, hbody⟩ :=
    deferred_record std cfg k log (k.c.Next next).context hskip
  obtain ⟨hrq, hrs⟩ := hbody henable
  obtain ⟨resp, hwritten, hdup⟩ := next_writer k.c next
  have hresp : k.respBody (k.c.Next next).context = resp := by
    simp [Captured.respBody, hbuilder, henable, hdup, hw]
  refine ⟨r, resp, hr, ?_, ?_, ?_⟩
  · rw [hwritten, hw]
    simp [henable]
  · rw [hrq, hreq henable hrequest]
    simp
  · rw [hrs, hresp]
    simp [skipResponseBody, hresponse]

/-- The body-limit rule at limit 3 with bodies of exactly three bytes. -/
theorem logger_body_fields_marker_from_limit_witness :
    ∃ r resp, (Logger.handler std (applyOptions [WithEnableBody true, WithBodyLimit 3])
          (calls [.Write [120, 121, 122]]) openLog
          (context (bodyOf [97, 98, 99]))).1.records = openLog.records ++ [r] ∧
      (Logger.handler std (applyOptions [WithEnableBody true, WithBodyLimit 3])
          (calls [.Write [120, 121, 122]]) openLog
          (context (bodyOf [97, 98, 99]))).2.context.Writer.written
        = (context (bodyOf [97, 98, 99])).Writer.written ++ resp ∧
      r.get "requestBody" = some (.string
        (if (applyOptions [WithEnableBody true, WithBodyLimit 3]).limit > 0 ∧
            (((context (bodyOf [97, 98, 99])).Request.Body.data.length : Nat) : Int)
              ≥ (applyOptions [WithEnableBody true, WithBodyLimit 3]).limit then
          goString "larger request body"
        else (context (bodyOf [97, 98, 99])).Request.Body.data)) ∧
      r.get "responseBody" = some (.string
        (if (applyOptions [WithEnableBody true, WithBodyLimit 3]).limit > 0 ∧
            (resp.length : Int)
              ≥ (applyOptions [WithEnableBody true, WithBodyLimit 3]).limit then
          goString "larger response body" else resp)) :=
  logger_body_fields_marker_from_limit std
    (applyOptions [WithEnableBody true, WithBodyLimit 3])
    (calls [.Write [120, 121, 122]]) openLog (context (bodyOf [97, 98, 99]))
    rfl (by decide) rfl (by decide) (by decide)

/-- C6 (the code at the failing input): with body capture on and limit 3, a
request body of exactly three bytes and a response body of exactly three
bytes, neither longer than the limit, are both logged as the marker, where
the claim says their content. -/
theorem logger_body_of_limit_size_logged_as_marker :
    (applyOptions [WithEnableBody true, WithBodyLimit 3]).limit = 3 ∧
    (context (bodyOf [97, 98, 99])).Request.Body.data.length = 3 ∧
    (Logger std [WithEnableBody true, WithBodyLimit 3] (calls [.Write [120, 121, 122]])
      openLog (context (bodyOf [97, 98, 99]))).2.context.Writer.written = [120, 121, 122] ∧
    (Logger std [WithEnableBody true, WithBodyLimit 3] (calls [.Write [120, 121, 122]])
      openLog (context (bodyOf [97, 98, 99]))).1.records.map
        (fun r => (r.get "requestBody", r.get "responseBody"))
      = [(some (.string (goString "larger request body")),
          some (.string (goString "larger response body")))] := by
  decide

/-- C8 (refuted as stated): with debug curl on and a helper that reads the
request body without putting it back, the stream the rest of the chain is
given is drained: with body capture on it does not yield the original bytes,
and with body capture off it is not the original stream. -/
theorem logger_debug_curl_changes_request_body :
    ¬ ((applyOptions [WithEnableBody true, WithEnableDebugCurl drainingCurl true]).enableBody
          = true →
        (skipRequestBody std (context (bodyOf [97, 98, 99])) ||
          (applyOptions [WithEnableBody true,
            WithEnableDebugCurl drainingCurl true]).skipRequestBody
            (context (bodyOf [97, 98, 99]))) = false →
        (context (bodyOf [97, 98, 99])).Request.Body.err = none →
        ∃ k, Logger.before std
              (applyOptions [WithEnableBody true, WithEnableDebugCurl drainingCurl true])
              (context (bodyOf [97, 98, 99])) = .ok k ∧
          k.c.Request.Body = NopCloser (context (bodyOf [97, 98, 99])).Request.Body.data) ∧
    ¬ ((applyOptions [WithEnableDebugCurl drainingCurl true]).enableBody = false →
        ∃ k, Logger.before std (applyOptions [WithEnableDebugCurl drainingCurl true])
              (context (bodyOf [97, 98, 99])) = .ok k ∧
          k.c.Request.Body = (context (bodyOf [97, 98, 99])).Request.Body) := by
  constructor
  · intro h
    obtain ⟨k, hk, hbody⟩ := h rfl (by decide) rfl
    have h0 : (match Logger.before std
        (applyOptions [WithEnableBody true, WithEnableDebugCurl drainingCurl true])
        (context (bodyOf [97, 98, 99])) with
      | .ok k => k.c.Request.Body.data
      | .error _ => []) = [] := by decide
    rw [hk] at h0
    simp only at h0
    rw [hbody] at h0
    exact absurd h0 (by decide)
  · intro h
    obtain ⟨k, hk, hbody⟩ := h rfl
    have h0 : (match Logger.before std (applyOptions [WithEnableDebugCurl drainingCurl true])
        (context (bodyOf [97, 98, 99])) with
      | .ok k => k.c.Request.Body.data
      | .error _ => []) = [] := by decide
    rw [hk] at h0
    simp only at h0
    rw [hbody] at h0
    exact absurd h0 (by decide)

/-- C8 (amended): when the handler of `Logger` captures the request body (body
capture on, body not skipped, the read succeeds), the rest of the chain runs on
a context whose request body is a fresh stream yielding exactly the bytes of
the original body, provided the debug-curl helper, if one is configured, hands
back the body of the request it is given (the request with that fresh
stream); when body capture is off or the body is skipped, the rest of the
chain runs on a context whose request body is the original stream, provided
the debug-curl helper, if one is configured and the body is not skipped, hands
back the body of the request it is given (the original request).  Without a
debug-curl helper, the default, both hold as they stand. -/
theorem logger_request_body_seen_downstream (std : Std) (cfg : Config)
    (next : HandlersChain) (log : Log) (c : Context) :
    (cfg.enableBody = true →
      (skipRequestBody std c || cfg.skipRequestBody c) = false →
      c.Request.Body.err = none →
      (∀ curl, cfg.debugCurl = some curl →
        (curl.IntoCurl { c.Request with Body := NopCloser c.Request.Body.data }).2.Body
          = NopCloser c.Request.Body.data) →
      ∃ k, Logger.before std cfg c = .ok k ∧
        Logger.handler std cfg next log c =
          (Logger.deferred std cfg k log (k.c.Next next).context, k.c.Next next) ∧
        k.c.Request.Body = NopCloser c.Request.Body.data) ∧
    ((cfg.enableBody = false ∨ (skipRequestBody std c || cfg.skipRequestBody c) = true) →
      (∀ curl, cfg.debugCurl = some curl →
        (skipRequestBody std c || cfg.skipRequestBody c) = false →
        (curl.IntoCurl c.Request).2.Body = c.Request.Body) →
      ∃ k, Logger.before std cfg c = .ok k ∧
        Logger.handler std cfg next log c =
          (Logger.deferred std cfg k log (k.c.Next next).context, k.c.Next next) ∧
        k.c.Request.Body = c.Request.Body) := by
  constructor
  · intro hb hs he hcurl
    obtain ⟨k, hk, _⟩ := before_ok std cfg c (fun _ _ => he)
    refine ⟨k, hk, handler_of_before_ok std cfg next log c k hk, ?_⟩
    unfold Logger.before at hk
    cases hc : cfg.debugCurl with
    | none =>
      simp [hb, hs, hc, he, Body.ReadAll] at hk
      split_ifs at hk <;> simp at hk <;> rw [← hk]
    | some curl =>
      have hcurl' := hcurl curl hc
      simp [hb, hs, hc, he, Body.ReadAll] at hk
      split_ifs at hk <;> simp at hk <;> rw [← hk] <;> simpa using hcurl'
  · intro h hcurl
    have hread : cfg.enableBody = true →
        (skipRequestBody std c || cfg.skipRequestBody c) = false →
        c.Request.Body.err = none := by
      intro hb hs
      rcases h with h | h
      · rw [hb] at h
        exact absurd h (by decide)
      · rw [hs] at h
        exact absurd h (by decide)
    obtain ⟨k, hk, _⟩ := before_ok std cfg c hread
    refine ⟨k, hk, handler_of_before_ok std cfg next log c k hk, ?_⟩
    unfold Logger.before at hk
    cases hb : cfg.enableBody <;>
      cases hs : (skipRequestBody std c || cfg.skipRequestBody c) <;>
      cases hc : cfg.debugCurl <;>
      simp [hb, hs, hc] at hk h <;>
      rw [← hk]
    rename_i curl
    exact hcurl curl hc hs

/-- Witness for C8 (amended): body capture and debug curl on, body "abc", with
a helper that leaves the request alone; and debug curl on with body capture
off. -/
theorem logger_request_body_seen_downstream_witness :
    (∃ k, Logger.before std (applyOptions [WithEnableBody true, WithEnableDebugCurl curl true])
          (context (bodyOf [97, 98, 99])) = .ok k ∧
        Logger.handler std (applyOptions [WithEnableBody true, WithEnableDebugCurl curl true])
            (calls [.ReadBody]) openLog (context (bodyOf [97, 98, 99])) =
          (Logger.deferred std
              (applyOptions [WithEnableBody true, WithEnableDebugCurl curl true]) k openLog
              (k.c.Next (calls [.ReadBody])).context, k.c.Next (calls [.ReadBody])) ∧
        k.c.Request.Body = NopCloser (context (bodyOf [97, 98, 99])).Request.Body.data) ∧
    (∃ k, Logger.before std (applyOptions [WithEnableDebugCurl curl true])
          (context (bodyOf [97, 98, 99])) = .ok k ∧
        Logger.handler std (applyOptions [WithEnableDebugCurl curl true])
            (calls [.ReadBody]) openLog (context (bodyOf [97, 98, 99])) =
          (Logger.deferred std (applyOptions [WithEnableDebugCurl curl true]) k openLog
              (k.c.Next (calls [.ReadBody])).context, k.c.Next (calls [.ReadBody])) ∧
        k.c.Request.Body = (context (bodyOf [97, 98, 99])).Request.Body) :=
  ⟨(logger_request_body_seen_downstream std
      (applyOptions [WithEnableBody true, WithEnableDebugCurl curl true])
      (calls [.ReadBody]) openLog (context (bodyOf [97, 98, 99]))).1
        rfl (by decide) rfl (fun _ h => by cases h; rfl),
   (logger_request_body_seen_downstream std (applyOptions [WithEnableDebugCurl curl true])
      (calls [.ReadBody]) openLog (context (bodyOf [97, 98, 99]))).2
        (Or.inl rfl) (fun _ h _ => by cases h; rfl)⟩

/-- C9 (refuted as stated): status 401 lies between 400 and 451, and the
default selector returns info level for it, not warn level. -/
theorem useLoggerLevel_401_is_not_warn :
    ¬ ((400 ≤ ((context (bodyOf [])).Status 401).Writer.Status ∧
          ((context (bodyOf [])).Status 401).Writer.Status ≤ 451) →
        useLoggerLevel ((context (bodyOf [])).Status 401) = .WarnLevel) := by
  intro h
  have h1 := h (by decide)
  have h2 : useLoggerLevel ((context (bodyOf [])).Status 401) = .InfoLevel := by decide
  rw [h2] at h1
  exact absurd h1 (by decide)

/-- C9 (amended): the default level selector returns error level when
500 <= status <= 511, warn level when 400 <= status <= 451 and the status is
not 401, and info level for every other status, 401 included. -/
theorem useLoggerLevel_by_status (c : Context) :
    ((500 ≤ c.Writer.Status ∧ c.Writer.Status ≤ 511) → useLoggerLevel c = .ErrorLevel) ∧
    ((400 ≤ c.Writer.Status ∧ c.Writer.Status ≤ 451 ∧ c.Writer.Status ≠ 401) →
      useLoggerLevel c = .WarnLevel) ∧
    ((¬ (500 ≤ c.Writer.Status ∧ c.Writer.Status ≤ 511) ∧
        ¬ (400 ≤ c.Writer.Status ∧ c.Writer.Status ≤ 451 ∧ c.Writer.Status ≠ 401)) →
      useLoggerLevel c = .InfoLevel) := by
  unfold useLoggerLevel
  simp only [StatusInternalServerError, StatusNetworkAuthenticationRequired,
    StatusBadRequest, StatusUnavailableForLegalReasons, StatusUnauthorized,
    Bool.and_eq_true, decide_eq_true_eq, ge_iff_le, ne_eq]
  refine ⟨fun h => ?_, fun h => ?_, fun h => ?_⟩
  · rw [if_pos h]
  · rw [if_neg (by omega), if_pos ⟨⟨h.1, h.2.1⟩, by simpa using h.2.2⟩]
  · rw [if_neg h.1, if_neg (by
      rintro ⟨⟨h1, h2⟩, h3⟩
      exact h.2 ⟨h1, h2, by simpa using h3⟩)]

/-- Witness for C9 (amended): statuses 503, 404, 401 and 200. -/
theorem useLoggerLevel_by_status_witness :
    useLoggerLevel ((context (bodyOf [])).Status 503) = .ErrorLevel ∧
    useLoggerLevel ((context (bodyOf [])).Status 404) = .WarnLevel ∧
    useLoggerLevel ((context (bodyOf [])).Status 401) = .InfoLevel ∧
    useLoggerLevel ((context (bodyOf [])).Status 200) = .InfoLevel :=
  ⟨(useLoggerLevel_by_status ((context (bodyOf [])).Status 503)).1 (by decide),
   (useLoggerLevel_by_status ((context (bodyOf [])).Status 404)).2.1 (by decide),
   (useLoggerLevel_by_status ((context (bodyOf [])).Status 401)).2.2 (by decide),
   (useLoggerLevel_by_status ((context (bodyOf [])).Status 200)).2.2 (by decide)⟩

/-- C2: when the rest of the chain panics with a value that is not classified
as a broken pipe, the handler of `Recovery` recovers the panic (it returns),
the chain is aborted, the response status is 500, and the status was set
exactly once, by the handler's single `WriteHeader(500)`. -/
theorem recovery_answers_500_once (std : Std) (stack : Bool) (cfg : Config)
    (next : HandlersChain) (log : Log) (c c1 : Context) (v : PanicValue)
    (hpanic : c.Next next = .panicked v c1)
    (hclass : brokenPipe v = false) :
    (Recovery.handler std stack cfg next log c).2.panic = none ∧
    (Recovery.handler std stack cfg next log c).2.context.aborted = true ∧
    (Recovery.handler std stack cfg next log c).2.context.Writer.Status = 500 ∧
    (Recovery.handler std stack cfg next log c).2.context.Writer.headerCalls
      = c1.Writer.headerCalls ++ [500] := by
  simp [Recovery.handler, hpanic, hclass, Outcome.panic, Outcome.context,
    Context.AbortWithStatus, Context.Abort, Context.Status, ResponseWriter.WriteHeader,
    ResponseWriter.Status, StatusInternalServerError]

/-- Witness for C2: a handler panicking with a string, as in the repository's example. -/
theorem recovery_answers_500_once_witness :
    (Recovery.handler std true newConfig (panics (.value "An unexpected error happen!"))
      openLog (context (bodyOf []))).2.panic = none ∧
    (Recovery.handler std true newConfig (panics (.value "An unexpected error happen!"))
      openLog (context (bodyOf []))).2.context.aborted = true ∧
    (Recovery.handler std true newConfig (panics (.value "An unexpected error happen!"))
      openLog (context (bodyOf []))).2.context.Writer.Status = 500 ∧
    (Recovery.handler std true newConfig (panics (.value "An unexpected error happen!"))
      openLog (context (bodyOf []))).2.context.Writer.headerCalls
      = (context (bodyOf [])).Writer.headerCalls ++ [500] :=
  recovery_answers_500_once std true newConfig
    (panics (.value "An unexpected error happen!")) openLog (context (bodyOf []))
    (context (bodyOf [])) (.value "An unexpected error happen!") rfl (by decide)

/-- C7: when the rest of the chain panics with a network operation error
wrapping a system-call error whose message contains, in any letter case,
"broken pipe" or "connection reset by peer", the handler of `Recovery`
converts the value to an error without failing, emits one record at error
level, records the value as an error on the context, aborts the chain, and
leaves the response writer, and so the status, as it was. -/
theorem recovery_broken_pipe_aborts_without_status (std : Std) (stack : Bool)
    (cfg : Config) (next : HandlersChain) (log : Log) (c c1 : Context)
    (op net syscall : String) (inner : GoError)
    (hmessage :
      strings.Contains (strings.ToLower (GoError.syscallError syscall inner).Error)
          "broken pipe" = true ∨
        strings.Contains (strings.ToLower (GoError.syscallError syscall inner).Error)
          "connection reset by peer" = true)
    (hpanic : c.Next next
      = .panicked (.error (.opError op net (.syscallError syscall inner))) c1) :
    asError (.error (.opError op net (.syscallError syscall inner)))
      = some (.opError op net (.syscallError syscall inner)) ∧
    (Recovery.handler std stack cfg next log c).2.panic = none ∧
    (∃ r, (Recovery.handler std stack cfg next log c).1.records = log.records ++ [r] ∧
      r.level = .ErrorLevel) ∧
    (Recovery.handler std stack cfg next log c).2.context.Errors
      = c1.Errors ++ [.opError op net (.syscallError syscall inner)] ∧
    (Recovery.handler std stack cfg next log c).2.context.aborted = true ∧
    (Recovery.handler std stack cfg next log c).2.context.Writer = c1.Writer := by
  have hclass : brokenPipe (.error (.opError op net (.syscallError syscall inner))) = true := by
    simp only [brokenPipe, Bool.or_eq_true]
    exact hmessage
  simp [Recovery.handler, hpanic, hclass, asError, Outcome.panic, Outcome.context,
    Context.Abort, Context.Error, Event.Msg, Event.ByteString, Event.Any, With_level,
    OnErrorContext, OnLevelContext]

/-- Witness for C7: a handler panicking with `write tcp: write: Broken pipe`. -/
theorem recovery_broken_pipe_aborts_without_status_witness :
    asError (.error brokenPipeError) = some brokenPipeError ∧
    (Recovery.handler std true newConfig (panics (.error brokenPipeError)) openLog
      (context (bodyOf []))).2.panic = none ∧
    (∃ r, (Recovery.handler std true newConfig (panics (.error brokenPipeError)) openLog
        (context (bodyOf []))).1.records = openLog.records ++ [r] ∧
      r.level = .ErrorLevel) ∧
    (Recovery.handler std true newConfig (panics (.error brokenPipeError)) openLog
      (context (bodyOf []))).2.context.Errors
      = (context (bodyOf [])).Errors ++ [brokenPipeError] ∧
    (Recovery.handler std true newConfig (panics (.error brokenPipeError)) openLog
      (context (bodyOf []))).2.context.aborted = true ∧
    (Recovery.handler std true newConfig (panics (.error brokenPipeError)) openLog
      (context (bodyOf []))).2.context.Writer = (context (bodyOf [])).Writer :=
  recovery_broken_pipe_aborts_without_status std true newConfig
    (panics (.error brokenPipeError)) openLog (context (bodyOf [])) (context (bodyOf []))
    "write" "tcp" "write" (.new "Broken pipe") (Or.inl (by decide)) rfl

end gzap

/-! ## Theorems: package pprof -/

namespace pprof

open gin

/-- The route table of the repository's example after `pprof.Router(router)`. -/
theorem router_example_routes :
    (Router engine []).routes.map (fun r => (r.Method, r.Path)) =
      [("GET", "/debug/pprof/"), ("GET", "/debug/pprof/cmdline"),
       ("GET", "/debug/pprof/profile"), ("POST", "/debug/pprof/symbol"),
       ("GET", "/debug/pprof/symbol"), ("GET", "/debug/pprof/trace"),
       ("GET", "/debug/pprof/allocs"), ("GET", "/debug/pprof/block"),
       ("GET", "/debug/pprof/goroutine"), ("GET", "/debug/pprof/heap"),
       ("GET", "/debug/pprof/mutex"), ("GET", "/debug/pprof/threadcreate"),
       ("GET", "/debug/vars")] := by
  decide

/-- C11: for every router `g` and every list of prefix options, `Router` adds
to the route table exactly these entries and no others: under the prefix (the
first option when one is given, otherwise "/debug/pprof"; later options play no
part) GET "/", GET "/cmdline", GET "/profile", POST and GET "/symbol",
GET "/trace", and GET "/allocs", "/block", "/goroutine", "/heap", "/mutex",
"/threadcreate"; and GET "/debug/vars" directly under `g`, whatever the
prefix.  The router's base path and the routes it had are unchanged. -/
theorem router_registers_exactly_the_pprof_routes (g : IRouter)
    (prefixOptions : List String) :
    (Router g prefixOptions).basePath = g.basePath ∧
    (Router g prefixOptions).routes = g.routes ++
      ([("GET", "/", WrappedHandler.pprofIndex),
        ("GET", "/cmdline", .pprofCmdline),
        ("GET", "/profile", .pprofProfile),
        ("POST", "/symbol", .pprofSymbol),
        ("GET", "/symbol", .pprofSymbol),
        ("GET", "/trace", .pprofTrace),
        ("GET", "/allocs", .pprofHandler "allocs"),
        ("GET", "/block", .pprofHandler "block"),
        ("GET", "/goroutine", .pprofHandler "goroutine"),
        ("GET", "/heap", .pprofHandler "heap"),
        ("GET", "/mutex", .pprofHandler "mutex"),
        ("GET", "/threadcreate", .pprofHandler "threadcreate")].map
        (fun route => (⟨route.1,
          g.joinPaths (g.joinPaths g.basePath (prefixOptions.headD defaultPrefix)) route.2.1,
          route.2.2⟩ : RouteInfo))) ++
      [⟨"GET", g.joinPaths g.basePath "/debug/vars", .expvarHandler⟩] := by
  cases prefixOptions with
  | nil => simp [Router, IRouter.GET, IRouter.POST, IRouter.handle, IRouter.Group]
  | cons first rest => simp [Router, IRouter.GET, IRouter.POST, IRouter.handle, IRouter.Group]

end pprof
